import Mathlib

/-! Shallow embedding of the Blender tutorial add-on in src/__init__.py.

  Conventions of the embedding:
  - Host floating point values are modelled exactly over the rationals.
  - A comparison of the form sqrt s > t with t ≥ 0 (the Euclidean
    distance checks of the source) is embedded as s > t^2, which is
    equivalent for nonnegative s and t.
  - Object rotations are stored in degrees; the source stores radians
    and converts both the current and the baseline value with
    math.degrees before comparing, an order-preserving change of units.
  - Display messages are constant ASCII strings abstracting the
    interpolated Japanese text of the source; the claims only use the
    boolean component and message nonemptiness or identity.
  - Blender IntProperty fields silently clamp every assignment to the
    declared hard [min, max] range; the set_current_chapter and
    set_current_stage writers below embed that host behaviour for the
    two position properties declared with min=1, max=5.
-/

structure Vec3 where
  x : ℚ
  y : ℚ
  z : ℚ
  deriving DecidableEq

/-- Squared Euclidean distance between two points; the source computes
  (dx*dx + dy*dy + dz*dz) ** 0.5 and compares it with a nonnegative
  threshold, which is embedded here as comparing this square with the
  squared threshold. -/
def distSq (a b : Vec3) : ℚ :=
  (a.x - b.x) ^ 2 + (a.y - b.y) ^ 2 + (a.z - b.z) ^ 2

/-- Absolute value on the rationals, embedding Python abs; defined by
  cases so that it evaluates inside the kernel. -/
def ratAbs (q : ℚ) : ℚ := if q < 0 then -q else q

/-- Auxiliary substring test on character lists, embedding the Python
  expression needle in hay. -/
def listContainsAux : List Char → List Char → Bool
  | needle, [] => needle.isEmpty
  | needle, c :: t => needle.isPrefixOf (c :: t) || listContainsAux needle t

/-- Embeds the Python substring test: needle in hay. -/
def strContainsStr (hay needle : String) : Bool :=
  listContainsAux needle.toList hay.toList

/-- Edit-mesh state of an object: per-element selection flags, whose
  list lengths are the element counts read by the source. -/
structure BMeshModel where
  verts : List Bool
  edges : List Bool
  faces : List Bool
  deriving DecidableEq

/-- One node of a shader node tree, with the fields the source reads:
  node.type, node.image is not None (for TEX_IMAGE nodes), and the
  Base Color / Roughness / Metallic input default values (for
  BSDF_PRINCIPLED nodes). -/
structure ShaderNode where
  ntype : String
  image_loaded : Bool
  base_color : List ℚ
  roughness : ℚ
  metallic : ℚ
  deriving DecidableEq

/-- One link of a shader node tree; nodes are identified by their index
  in the node list, embedding the identity comparison link.from_node ==
  node of the source. -/
structure NodeLink where
  from_node : Nat
  to_node : Nat
  from_socket : String
  to_socket : String
  deriving DecidableEq

structure Material where
  use_nodes : Bool
  nodes : List ShaderNode
  links : List NodeLink
  deriving DecidableEq

/-- A scene object with the fields the validators read. -/
structure Obj where
  name : String
  otype : String
  has_data : Bool
  location : Vec3
  rotation_deg : Vec3
  scale : Vec3
  vertices : List Vec3
  bm : BMeshModel
  material_slot_count : Nat
  active_material_index : Int
  active_material : Option Material
  deriving DecidableEq

/-- The 3D view region state: space.region_3d of a VIEW_3D space. The
  two-level lookup (space, then region_3d) of the source is collapsed
  into one option, observationally equivalent for every reader. -/
structure Region3D where
  view_location : Vec3
  view_distance : ℚ
  deriving DecidableEq

/-- Read-only snapshot of the host (Blender) state consumed by the
  validators and the poll loop. -/
structure HostState where
  active_object : Option Obj
  objects : List Obj
  mode : String
  view3d : Option Region3D
  brush : Option String
  undo_depth : Nat
  deriving DecidableEq

/-- TUTORIAL_PG_Properties: the progress state and baseline snapshot.
  current_chapter and current_stage are IntProperty(min=1, max=5); all
  writes to them go through the clamping setters below. -/
structure Props where
  current_chapter : Int
  current_stage : Int
  stage_complete : Bool
  monitoring_active : Bool
  initial_position : Vec3
  initial_rotation : Vec3
  initial_scale : Vec3
  initial_view_distance : ℚ
  initial_view_location : Vec3
  initial_vertex_count : Int
  initial_edge_count : Int
  initial_face_count : Int
  initial_vertex_positions : List Vec3
  last_check_time : ℚ
  deriving DecidableEq

/-- Default values of TUTORIAL_PG_Properties. -/
def default_props : Props where
  current_chapter := 1
  current_stage := 1
  stage_complete := false
  monitoring_active := false
  initial_position := ⟨0, 0, 0⟩
  initial_rotation := ⟨0, 0, 0⟩
  initial_scale := ⟨1, 1, 1⟩
  initial_view_distance := 0
  initial_view_location := ⟨0, 0, 0⟩
  initial_vertex_count := 0
  initial_edge_count := 0
  initial_face_count := 0
  initial_vertex_positions := []
  last_check_time := 0

/-- StageManager.find_cube: first mesh object whose name has Cube as a
  substring. -/
def find_cube (h : HostState) : Option Obj :=
  h.objects.find? (fun o => o.otype == "MESH" && strContainsStr o.name "Cube")

/-- StageManager.find_sphere: first mesh object whose name has Sphere
  as a substring. -/
def find_sphere (h : HostState) : Option Obj :=
  h.objects.find? (fun o => o.otype == "MESH" && strContainsStr o.name "Sphere")

/-- StageManager.get_bm: the edit mesh of the object, available only
  for a mesh object while the host is in EDIT_MESH mode. -/
def get_bm (h : HostState) : Option Obj → Option BMeshModel
  | none => none
  | some o =>
    if o.otype == "MESH" then
      if h.mode == "EDIT_MESH" then some o.bm else none
    else none

/-- StageManager.is_in_sculpt_mode. -/
def is_in_sculpt_mode (h : HostState) : Bool :=
  h.mode == "SCULPT"

/-- StageManager.is_undo_running: window_manager.undo_depth > 0. -/
def is_undo_running (h : HostState) : Bool :=
  decide (0 < h.undo_depth)

/-- StageManager.get_current_brush_name. -/
def get_current_brush_name (h : HostState) : Option String :=
  h.brush

/-- StageManager.is_brush_type_selected: the active brush name has the
  given substring. -/
def is_brush_type_selected (h : HostState) (brush_type_name : String) : Bool :=
  match get_current_brush_name h with
  | some n => strContainsStr n brush_type_name
  | none => false

/-- Loop body of StageManager.get_vertex_deformation_amount: walks the
  current and baseline vertex lists in parallel up to the shorter
  length and counts the vertices whose Euclidean displacement exceeds
  0.001 (embedded as squared distance exceeding 0.001^2). -/
def countMoved : List Vec3 → List Vec3 → Nat
  | v :: vs, w :: ws =>
      (if distSq v w > (1 / 1000) ^ 2 then 1 else 0) + countMoved vs ws
  | _, _ => 0

/-- StageManager.get_vertex_deformation_amount, reduced to the moved
  count: the source also accumulates a total distance, but no caller
  reads it, so it is not embedded (it would need an exact square
  root). -/
def get_vertex_deformation_amount (sphere : Option Obj)
    (initial_positions : List Vec3) : Nat :=
  match sphere with
  | none => 0
  | some s =>
    if !s.has_data then 0
    else if s.vertices.isEmpty then 0
    else countMoved s.vertices initial_positions

/-- StageManager.get_active_material. -/
def get_active_material : Option Obj → Option Material
  | none => none
  | some o =>
    if !o.has_data then none
    else if o.material_slot_count = 0 then none
    else if o.active_material_index < 0 then none
    else o.active_material

/-- StageManager.get_principled_bsdf: the first BSDF_PRINCIPLED node of
  a node-based material. -/
def get_principled_bsdf : Option Material → Option ShaderNode
  | none => none
  | some m =>
    if !m.use_nodes then none
    else m.nodes.find? (fun n => n.ntype == "BSDF_PRINCIPLED")

/-- StageManager.check_image_texture_node_exists. -/
def check_image_texture_node_exists (o : Option Obj) : Bool :=
  match get_active_material o with
  | none => false
  | some m =>
    if !m.use_nodes then false
    else m.nodes.any (fun n => n.ntype == "TEX_IMAGE" && n.image_loaded)

/-- Node-scanning loop of StageManager.check_correct_node_link: one
  pass over the node list that remembers the index of the most recent
  TEX_IMAGE node and of the most recent BSDF_PRINCIPLED node (the
  source has no break, so the last occurrence of each wins). -/
def scan_link_nodes : Nat → Option Nat → Option Nat → List ShaderNode →
    Option Nat × Option Nat
  | _, img, bsdf, [] => (img, bsdf)
  | i, img, bsdf, n :: rest =>
    let img1 := if n.ntype == "TEX_IMAGE" then some i else img
    let bsdf1 := if n.ntype == "BSDF_PRINCIPLED" then some i else bsdf
    scan_link_nodes (i + 1) img1 bsdf1 rest

/-- StageManager.check_correct_node_link. -/
def check_correct_node_link (o : Option Obj) : Bool :=
  match get_active_material o with
  | none => false
  | some m =>
    if !m.use_nodes then false
    else
      match scan_link_nodes 0 none none m.nodes with
      | (some imgIdx, some bsdfIdx) =>
        m.links.any (fun l =>
          l.from_node == imgIdx && l.to_node == bsdfIdx &&
          l.from_socket == "Color" && l.to_socket == "Base Color")
      | _ => false

/-- Chapter 1 block of StageManager.validate_stage; none means the
  stage number matched no branch and control falls through to the
  generic error return. -/
def validate_ch1 (h : HostState) (p : Props) : Option (Bool × String) :=
  if p.current_stage = 1 then
    match h.active_object with
    | some o =>
      if o.name == "Cube" then some (true, "ok cube selected")
      else some (false, "err select the cube")
    | none => some (false, "err select the cube")
  else if p.current_stage = 2 then
    match h.active_object with
    | some o =>
      if o.name == "Cube" then
        if ratAbs (o.location.x - p.initial_position.x - 2) < 1 / 10 then
          some (true, "ok moved plus two")
        else some (false, "err movement amount")
      else some (false, "err no cube")
    | none => some (false, "err no cube")
  else if p.current_stage = 3 then
    match h.active_object with
    | some o =>
      if o.name == "Cube" then
        if ratAbs (o.rotation_deg.x - p.initial_rotation.x - 45) < 1 then
          some (true, "ok rotated 45 degrees")
        else some (false, "err rotation amount")
      else some (false, "err no cube")
    | none => some (false, "err no cube")
  else if p.current_stage = 4 then
    match h.active_object with
    | some o =>
      if o.name == "Cube" then
        if ratAbs (o.scale.x - p.initial_scale.x) > 1 / 100 then
          some (true, "ok scale changed")
        else some (false, "err change the scale value")
      else some (false, "err no cube")
    | none => some (false, "err no cube")
  else none

/-- Chapter 2 block of StageManager.validate_stage: the 3D view is
  required before the stage dispatch. -/
def validate_ch2 (h : HostState) (p : Props) : Option (Bool × String) :=
  match h.view3d with
  | none => some (false, "err no 3d view")
  | some r =>
    if p.current_stage = 1 then
      if distSq r.view_location p.initial_view_location > (1 / 10) ^ 2 then
        some (true, "ok view moved")
      else some (false, "err pan the view")
    else if p.current_stage = 2 then
      if ratAbs (r.view_distance - p.initial_view_distance) > 1 / 2 then
        some (true, "ok zoomed")
      else some (false, "err zoom the view")
    else if p.current_stage = 3 then
      if distSq r.view_location p.initial_view_location > (1 / 100) ^ 2 ∨
          ratAbs (r.view_distance - p.initial_view_distance) > 1 / 100 then
        some (true, "ok view rotated")
      else some (false, "err rotate the view")
    else if p.current_stage = 4 then
      if distSq r.view_location p.initial_view_location > (1 / 10) ^ 2 ∧
          ratAbs (r.view_distance - p.initial_view_distance) > 1 / 2 then
        some (true, "ok all view operations mastered")
      else some (false, "err pan plus zoom required")
    else none

/-- Chapter 3 block of StageManager.validate_stage. -/
def validate_ch3 (h : HostState) (p : Props) : Option (Bool × String) :=
  if p.current_stage = 1 then
    match h.active_object with
    | some _ =>
      if h.mode == "EDIT_MESH" then some (true, "ok edit mode entered")
      else some (false, "err enter edit mode")
    | none => some (false, "err enter edit mode")
  else if p.current_stage = 2 then
    match get_bm h h.active_object with
    | some bm =>
      if bm.verts.countP (fun s => s) ≥ 3 then
        some (true, "ok vertices selected")
      else some (false, "err select three vertices")
    | none => some (false, "err edit mode required")
  else if p.current_stage = 3 then
    match get_bm h h.active_object with
    | some bm =>
      if bm.edges.any (fun s => s) then some (true, "ok edge selected")
      else some (false, "err select an edge")
    | none => some (false, "err select an edge")
  else if p.current_stage = 4 then
    match get_bm h h.active_object with
    | some bm =>
      if bm.faces.any (fun s => s) then some (true, "ok face selected")
      else some (false, "err select a face")
    | none => some (false, "err select a face")
  else if p.current_stage = 5 then
    match get_bm h h.active_object with
    | some bm =>
      if (bm.faces.length : Int) > p.initial_face_count then
        some (true, "ok extruded")
      else some (false, "err extrude a face")
    | none => some (false, "err extrude a face")
  else if p.current_stage = 6 then
    match get_bm h h.active_object with
    | some bm =>
      if (bm.verts.length : Int) > p.initial_vertex_count then
        some (true, "ok loop cut added")
      else some (false, "err add a loop cut")
    | none => some (false, "err add a loop cut")
  else none

/-- Chapter 4 block of StageManager.validate_stage. -/
def validate_ch4 (h : HostState) (p : Props) : Option (Bool × String) :=
  if p.current_stage = 1 then
    if is_in_sculpt_mode h then
      match find_sphere h with
      | some _ => some (true, "ok sculpt mode entered")
      | none => some (false, "err enter sculpt mode")
    else some (false, "err enter sculpt mode")
  else if p.current_stage = 2 then
    if is_in_sculpt_mode h then
      match find_sphere h with
      | some s =>
        if get_vertex_deformation_amount (some s) p.initial_vertex_positions > 5 then
          some (true, "ok draw brush deformation")
        else some (false, "err deform the sphere")
      | none => some (false, "err sculpt mode required")
    else some (false, "err sculpt mode required")
  else if p.current_stage = 3 then
    if is_in_sculpt_mode h then
      if is_brush_type_selected h "Smooth" then
        some (true, "ok smooth brush selected")
      else some (false, "err select the smooth brush")
    else some (false, "err sculpt mode required")
  else if p.current_stage = 4 then
    if is_in_sculpt_mode h then
      if is_brush_type_selected h "Grab" then
        some (true, "ok grab brush selected")
      else some (false, "err select the grab brush")
    else some (false, "err sculpt mode required")
  else none

/-- Default Base Color of a Principled BSDF node. -/
def default_base_color : List ℚ := [1, 1, 1, 1]

/-- Chapter 5 block of StageManager.validate_stage. -/
def validate_ch5 (h : HostState) (p : Props) : Option (Bool × String) :=
  if p.current_stage = 1 then
    match h.active_object with
    | some o =>
      match get_active_material (some o) with
      | some m =>
        if m.use_nodes then some (true, "ok material created")
        else some (false, "err create a material")
      | none => some (false, "err create a material")
    | none => some (false, "err select an object")
  else if p.current_stage = 2 then
    match h.active_object with
    | some o =>
      match get_active_material (some o) with
      | some m =>
        match get_principled_bsdf (some m) with
        | some b =>
          if (List.range 4).any (fun i =>
              decide (ratAbs (b.base_color.getD i 0 - default_base_color.getD i 0) > 1 / 100)) then
            some (true, "ok base color changed")
          else some (false, "err change the base color")
        | none => some (false, "err principled bsdf not found")
      | none => some (false, "err no active material")
    | none => some (false, "err select an object")
  else if p.current_stage = 3 then
    match h.active_object with
    | some o =>
      if check_image_texture_node_exists (some o) then
        some (true, "ok image texture loaded")
      else some (false, "err load an image texture")
    | none => some (false, "err select an object")
  else if p.current_stage = 4 then
    match h.active_object with
    | some o =>
      if check_correct_node_link (some o) then
        some (true, "ok nodes connected")
      else some (false, "err connect color to base color")
    | none => some (false, "err select an object")
  else if p.current_stage = 5 then
    match h.active_object with
    | some o =>
      match get_active_material (some o) with
      | some m =>
        match get_principled_bsdf (some m) with
        | some b =>
          if ratAbs (b.roughness - 1 / 2) > 1 / 100 ∨ ratAbs (b.metallic - 0) > 1 / 100 then
            some (true, "ok pbr parameters changed")
          else some (false, "err change roughness or metallic")
        | none => some (false, "err principled bsdf not found")
      | none => some (false, "err no active material")
    | none => some (false, "err select an object")
  else none

/-- StageManager.validate_stage: dispatch on the current chapter; any
  fall-through (unknown chapter, or unknown stage within a chapter
  block) reaches the final generic error return of the source. -/
def validate_stage (h : HostState) (p : Props) : Bool × String :=
  (if p.current_chapter = 1 then validate_ch1 h p
   else if p.current_chapter = 2 then validate_ch2 h p
   else if p.current_chapter = 3 then validate_ch3 h p
   else if p.current_chapter = 4 then validate_ch4 h p
   else if p.current_chapter = 5 then validate_ch5 h p
   else none).getD (false, "err validation error")

/-- StageManager.check_stage: run the validator and set stage_complete
  when it succeeds and the flag is not yet set. -/
def check_stage (h : HostState) (p : Props) : Props :=
  if (validate_stage h p).1 && !p.stage_complete then
    { p with stage_complete := true }
  else p

/-- Effect on the progress state of TUTORIAL_OT_validate_stage.execute,
  together with the (complete, message) pair it reports. -/
def validate_stage_execute (h : HostState) (p : Props) :
    Props × (Bool × String) :=
  let r := validate_stage h p
  if r.1 then ({ p with stage_complete := true }, r) else (p, r)

/-- Clamped assignment of a Blender IntProperty with hard limits. -/
def clampI (lo hi v : Int) : Int := max lo (min hi v)

/-- Assignment to props.current_chapter (IntProperty min=1, max=5). -/
def set_current_chapter (p : Props) (v : Int) : Props :=
  { p with current_chapter := clampI 1 5 v }

/-- Assignment to props.current_stage (IntProperty min=1, max=5). -/
def set_current_stage (p : Props) (v : Int) : Props :=
  { p with current_stage := clampI 1 5 v }

/-- The max-stage-per-chapter table of TUTORIAL_OT_next_stage.execute,
  with the .get default of 4. -/
def max_stages_per_chapter (c : Int) : Int :=
  if c = 1 then 4
  else if c = 2 then 4
  else if c = 3 then 6
  else if c = 4 then 4
  else if c = 5 then 5
  else 4

/-- TUTORIAL_OT_next_stage.execute: note that the terminal branch
  returns before the two flag resets, and that the stage increment is
  an IntProperty assignment and therefore clamped. -/
def next_stage (p : Props) : Props :=
  if p.current_stage < max_stages_per_chapter p.current_chapter then
    let p1 := set_current_stage p (p.current_stage + 1)
    { p1 with stage_complete := false, monitoring_active := false }
  else if p.current_chapter < 5 then
    let p1 := set_current_stage (set_current_chapter p (p.current_chapter + 1)) 1
    { p1 with stage_complete := false, monitoring_active := false }
  else p

/-- TUTORIAL_OT_reset.execute. -/
def reset_progress (p : Props) : Props :=
  let p1 := set_current_stage (set_current_chapter p 1) 1
  { p1 with stage_complete := false, monitoring_active := false }

/-- TUTORIAL_OT_goto_chapter.execute; the operator property chapter is
  itself declared with min=1, max=5 and hence clamped. -/
def goto_chapter (n : Int) (p : Props) : Props :=
  let p1 := set_current_stage (set_current_chapter p (clampI 1 5 n)) 1
  { p1 with stage_complete := false, monitoring_active := false }

/-- Effect on the progress state of TUTORIAL_OT_setup_stage.execute.
  The host argument is the host state at baseline-capture time, after
  the scene actions the operator performs: for chapter 1 the source
  resets the created cube to the literal transform it then captures;
  for chapter 3 stage 6 it recreates a default cube (8 vertices, 12
  edges, 6 faces) and recaptures; for chapter 4 the captured object is
  the active object (the created sphere). -/
def setup_stage (h : HostState) (p : Props) : Props :=
  let p1 :=
    if p.current_chapter = 1 then
      { p with initial_position := ⟨0, 0, 0⟩,
               initial_rotation := ⟨0, 0, 0⟩,
               initial_scale := ⟨1, 1, 1⟩ }
    else if p.current_chapter = 2 then
      match h.view3d with
      | some r =>
        { p with initial_view_distance := r.view_distance,
                 initial_view_location := r.view_location }
      | none => p
    else if p.current_chapter = 3 then
      match find_cube h with
      | some c =>
        if p.current_stage = 6 then
          { p with initial_vertex_count := 8,
                   initial_edge_count := 12,
                   initial_face_count := 6 }
        else
          { p with initial_vertex_count := (c.vertices.length : Int),
                   initial_edge_count := (c.bm.edges.length : Int),
                   initial_face_count := (c.bm.faces.length : Int) }
      | none => p
    else if p.current_chapter = 4 then
      match h.active_object with
      | some s =>
        { p with initial_vertex_positions := s.vertices,
                 initial_vertex_count := (s.vertices.length : Int) }
      | none => { p with initial_vertex_positions := [] }
    else p
  { p1 with stage_complete := false, monitoring_active := true }

/-- Outcome tag of one modal tick. -/
inductive ModalResult
  | finished
  | pass_through
  deriving DecidableEq

/-- State owned by TUTORIAL_OT_monitoring: the shared progress state,
  whether its timer is registered, and the class attribute
  _last_check. -/
structure MonState where
  props : Props
  timer_active : Bool
  last_check : ℚ
  deriving DecidableEq

/-- One TIMER firing of TUTORIAL_OT_monitoring.modal. The last output
  component instruments whether the tick evaluated the validator
  (called StageManager.check_stage). -/
def modal_tick (h : HostState) (now : ℚ) (s : MonState) :
    MonState × ModalResult × Bool :=
  if s.props.monitoring_active = false then
    ({ s with timer_active := false }, ModalResult.finished, false)
  else if is_undo_running h then
    (s, ModalResult.pass_through, false)
  else if now - s.last_check > 1 / 5 then
    ({ s with props := check_stage h s.props, last_check := now },
      ModalResult.pass_through, true)
  else (s, ModalResult.pass_through, false)

/-- Repeated application of next_stage, peeling the last step. -/
def advance_iter : Nat → Props → Props
  | 0, p => p
  | n + 1, p => next_stage (advance_iter n p)

/-- The (chapter, stage) position of a progress state. -/
def pos_of (p : Props) : Int × Int :=
  (p.current_chapter, p.current_stage)

/-- The (chapter, stage) pairs for which validate_stage has a branch. -/
def known_pair (c s : Int) : Prop :=
  (c = 1 ∧ 1 ≤ s ∧ s ≤ 4) ∨ (c = 2 ∧ 1 ≤ s ∧ s ≤ 4) ∨
  (c = 3 ∧ 1 ≤ s ∧ s ≤ 6) ∨ (c = 4 ∧ 1 ≤ s ∧ s ≤ 4) ∨
  (c = 5 ∧ 1 ≤ s ∧ s ≤ 5)

instance (c s : Int) : Decidable (known_pair c s) := by
  unfold known_pair; infer_instance

/-- The position bounds enforced by the two IntProperty declarations. -/
def in_range (p : Props) : Prop :=
  1 ≤ p.current_chapter ∧ p.current_chapter ≤ 5 ∧
  1 ≤ p.current_stage ∧ p.current_stage ≤ 5

instance (p : Props) : Decidable (in_range p) := by
  unfold in_range; infer_instance

/-- Last index, counting from i, of a node of the given type: the
  specification-side description of what the scanning loop of
  check_correct_node_link selects. -/
def last_idx_from (t : String) : Nat → List ShaderNode → Option Nat
  | _, [] => none
  | i, n :: rest =>
    match last_idx_from t (i + 1) rest with
    | some j => some j
    | none => if n.ntype == t then some i else none

/-- Modelled from the spec: the claim C6 wording, under which any
  image-texture node (not just the last) with a Color output linked
  into any principled node Base Color input counts. -/
def spec_color_base_link (m : Material) : Bool :=
  m.links.any (fun l =>
    (match m.nodes.get? l.from_node with
     | some n => n.ntype == "TEX_IMAGE"
     | none => false) &&
    (match m.nodes.get? l.to_node with
     | some n => n.ntype == "BSDF_PRINCIPLED"
     | none => false) &&
    l.from_socket == "Color" && l.to_socket == "Base Color")

-- C3 fixtures
def cube_scaled_y : Obj :=
  { name := "Cube", otype := "MESH", has_data := true,
    location := ⟨0, 0, 0⟩, rotation_deg := ⟨0, 0, 0⟩, scale := ⟨1, 2, 1⟩,
    vertices := [], bm := ⟨[], [], []⟩,
    material_slot_count := 0, active_material_index := 0, active_material := none }

def host_c3 : HostState :=
  { active_object := some cube_scaled_y, objects := [cube_scaled_y],
    mode := "OBJECT", view3d := none, brush := none, undo_depth := 0 }

def props_1_4 : Props :=
  { default_props with current_chapter := 1, current_stage := 4 }

-- C4 fixtures: view-location delta 0.2, view-distance delta 0.3 resp 0.6
def region_pan_small_zoom : Region3D := ⟨⟨1 / 5, 0, 0⟩, 3 / 10⟩

def region_pan_large_zoom : Region3D := ⟨⟨1 / 5, 0, 0⟩, 3 / 5⟩

def host_c4a : HostState :=
  { active_object := none, objects := [], mode := "OBJECT",
    view3d := some region_pan_small_zoom, brush := none, undo_depth := 0 }

def host_c4b : HostState :=
  { active_object := none, objects := [], mode := "OBJECT",
    view3d := some region_pan_large_zoom, brush := none, undo_depth := 0 }

def props_2_4 : Props :=
  { default_props with current_chapter := 2, current_stage := 4 }

-- C6 fixtures: two image-texture nodes; the link leaves the first one,
-- but the source scan keeps only the last one
def img_tex_node : ShaderNode :=
  { ntype := "TEX_IMAGE", image_loaded := true,
    base_color := [1, 1, 1, 1], roughness := 1 / 2, metallic := 0 }

def img_tex_node_b : ShaderNode :=
  { ntype := "TEX_IMAGE", image_loaded := false,
    base_color := [1, 1, 1, 1], roughness := 1 / 2, metallic := 0 }

def principled_node : ShaderNode :=
  { ntype := "BSDF_PRINCIPLED", image_loaded := false,
    base_color := [1, 1, 1, 1], roughness := 1 / 2, metallic := 0 }

def mat_two_tex : Material :=
  { use_nodes := true,
    nodes := [img_tex_node, img_tex_node_b, principled_node],
    links := [{ from_node := 0, to_node := 2,
                from_socket := "Color", to_socket := "Base Color" }] }

def obj_two_tex : Obj :=
  { name := "Cube", otype := "MESH", has_data := true,
    location := ⟨0, 0, 0⟩, rotation_deg := ⟨0, 0, 0⟩, scale := ⟨1, 1, 1⟩,
    vertices := [], bm := ⟨[], [], []⟩,
    material_slot_count := 1, active_material_index := 0,
    active_material := some mat_two_tex }

def host_c6 : HostState :=
  { active_object := some obj_two_tex, objects := [obj_two_tex],
    mode := "OBJECT", view3d := none, brush := none, undo_depth := 0 }

def props_5_4 : Props :=
  { default_props with current_chapter := 5, current_stage := 4 }

def mat_linked : Material :=
  { use_nodes := true,
    nodes := [img_tex_node, principled_node],
    links := [{ from_node := 0, to_node := 1,
                from_socket := "Color", to_socket := "Base Color" }] }

def obj_linked : Obj :=
  { name := "Cube", otype := "MESH", has_data := true,
    location := ⟨0, 0, 0⟩, rotation_deg := ⟨0, 0, 0⟩, scale := ⟨1, 1, 1⟩,
    vertices := [], bm := ⟨[], [], []⟩,
    material_slot_count := 1, active_material_index := 0,
    active_material := some mat_linked }

def host_c6w : HostState :=
  { active_object := some obj_linked, objects := [obj_linked],
    mode := "OBJECT", view3d := none, brush := none, undo_depth := 0 }

-- concrete fixtures used by the witness theorems
def host_plain : HostState :=
  { active_object := none, objects := [], mode := "OBJECT",
    view3d := none, brush := none, undo_depth := 0 }

def props_1_5 : Props :=
  { default_props with current_stage := 5 }

def sphere_deformed : Obj :=
  { name := "Sphere", otype := "MESH", has_data := true,
    location := ⟨0, 0, 0⟩, rotation_deg := ⟨0, 0, 0⟩, scale := ⟨1, 1, 1⟩,
    vertices := [⟨1, 0, 0⟩, ⟨1, 0, 0⟩, ⟨1, 0, 0⟩, ⟨1, 0, 0⟩, ⟨1, 0, 0⟩, ⟨1, 0, 0⟩],
    bm := ⟨[], [], []⟩,
    material_slot_count := 0, active_material_index := 0, active_material := none }

def host_c5w : HostState :=
  { active_object := none, objects := [sphere_deformed], mode := "SCULPT",
    view3d := none, brush := none, undo_depth := 0 }

def props_4_2 : Props :=
  { default_props with
      current_chapter := 4
      current_stage := 2
      initial_vertex_positions :=
        [⟨0, 0, 0⟩, ⟨0, 0, 0⟩, ⟨0, 0, 0⟩, ⟨0, 0, 0⟩, ⟨0, 0, 0⟩, ⟨0, 0, 0⟩] }

def props_complete : Props :=
  { default_props with stage_complete := true }

def host_c7w : HostState :=
  { active_object := none, objects := [], mode := "OBJECT",
    view3d := none, brush := none, undo_depth := 0 }

def host_c9w : HostState :=
  { active_object := none, objects := [], mode := "OBJECT",
    view3d := none, brush := none, undo_depth := 3 }

def mon_idle : MonState :=
  { props := default_props, timer_active := true, last_check := 0 }

def props_3_5 : Props :=
  { default_props with current_chapter := 3, current_stage := 5 }

theorem validate_stage_irrel (h : HostState) (p : Props) (b : Bool) :
    validate_stage h { p with stage_complete := b } = validate_stage h p := rfl

theorem validate_stage_execute_snd (h : HostState) (p : Props) :
    (validate_stage_execute h p).2 = validate_stage h p := by
  by_cases hc : (validate_stage h p).1 = true <;>
    simp [validate_stage_execute, hc]

theorem validate_stage_execute_mono (h : HostState) (q : Props)
    (hq : q.stage_complete = true) :
    ((validate_stage_execute h q).1).stage_complete = true := by
  by_cases hc : (validate_stage h q).1 = true <;>
    simp [validate_stage_execute, hc, hq]

-- C2 helpers: messages are never empty
theorem validate_ch1_msg (h : HostState) (p : Props) :
    ∀ r, validate_ch1 h p = some r → r.2 ≠ "" := by
  intro r hr
  unfold validate_ch1 at hr
  repeat' split at hr
  all_goals first
    | (injection hr with h2; subst h2; decide)
    | simp at hr

theorem validate_ch2_msg (h : HostState) (p : Props) :
    ∀ r, validate_ch2 h p = some r → r.2 ≠ "" := by
  intro r hr
  unfold validate_ch2 at hr
  repeat' split at hr
  all_goals first
    | (injection hr with h2; subst h2; decide)
    | simp at hr

theorem validate_ch3_msg (h : HostState) (p : Props) :
    ∀ r, validate_ch3 h p = some r → r.2 ≠ "" := by
  intro r hr
  unfold validate_ch3 at hr
  repeat' split at hr
  all_goals first
    | (injection hr with h2; subst h2; decide)
    | simp at hr

theorem validate_ch4_msg (h : HostState) (p : Props) :
    ∀ r, validate_ch4 h p = some r → r.2 ≠ "" := by
  intro r hr
  unfold validate_ch4 at hr
  repeat' split at hr
  all_goals first
    | (injection hr with h2; subst h2; decide)
    | simp at hr

theorem validate_ch5_msg (h : HostState) (p : Props) :
    ∀ r, validate_ch5 h p = some r → r.2 ≠ "" := by
  intro r hr
  unfold validate_ch5 at hr
  repeat' split at hr
  all_goals first
    | (injection hr with h2; subst h2; decide)
    | simp at hr

-- stage out of range: every produced result (if any) is a failure

theorem validate_ch1_out (h : HostState) (p : Props)
    (hs : ¬(1 ≤ p.current_stage ∧ p.current_stage ≤ 4)) :
    validate_ch1 h p = none := by
  unfold validate_ch1
  split_ifs <;> first | rfl | omega

theorem validate_ch2_out (h : HostState) (p : Props)
    (hs : ¬(1 ≤ p.current_stage ∧ p.current_stage ≤ 4)) :
    ∀ r, validate_ch2 h p = some r → r.1 = false := by
  intro r hr
  unfold validate_ch2 at hr
  repeat' split at hr
  all_goals first
    | omega
    | (injection hr with h2; subst h2; rfl)
    | simp at hr

theorem validate_ch3_out (h : HostState) (p : Props)
    (hs : ¬(1 ≤ p.current_stage ∧ p.current_stage ≤ 6)) :
    validate_ch3 h p = none := by
  unfold validate_ch3
  split_ifs <;> first | rfl | omega

theorem validate_ch4_out (h : HostState) (p : Props)
    (hs : ¬(1 ≤ p.current_stage ∧ p.current_stage ≤ 4)) :
    validate_ch4 h p = none := by
  unfold validate_ch4
  split_ifs <;> first | rfl | omega

theorem validate_ch5_out (h : HostState) (p : Props)
    (hs : ¬(1 ≤ p.current_stage ∧ p.current_stage ≤ 5)) :
    validate_ch5 h p = none := by
  unfold validate_ch5
  split_ifs <;> first | rfl | omega

-- missing active object

theorem validate_ch1_noobj (h : HostState) (p : Props)
    (ho : h.active_object = none) :
    ∀ r, validate_ch1 h p = some r → r.1 = false := by
  intro r hr
  unfold validate_ch1 at hr
  rw [ho] at hr
  repeat' split at hr
  all_goals first
    | (injection hr with h2; subst h2; rfl)
    | simp_all

theorem validate_ch5_noobj (h : HostState) (p : Props)
    (ho : h.active_object = none) :
    ∀ r, validate_ch5 h p = some r → r.1 = false := by
  intro r hr
  unfold validate_ch5 at hr
  rw [ho] at hr
  repeat' split at hr
  all_goals first
    | (injection hr with h2; subst h2; rfl)
    | simp_all

-- missing 3d view

theorem validate_ch2_noview (h : HostState) (p : Props)
    (hv : h.view3d = none) :
    validate_ch2 h p = some (false, "err no 3d view") := by
  unfold validate_ch2
  rw [hv]

-- wrong mode

theorem get_bm_not_edit (h : HostState) (o : Option Obj)
    (hm : h.mode ≠ "EDIT_MESH") : get_bm h o = none := by
  have hmb : (h.mode == "EDIT_MESH") = false := by simpa using hm
  cases o with
  | none => rfl
  | some o => simp [get_bm, hmb]

theorem validate_ch3_not_edit (h : HostState) (p : Props)
    (hm : h.mode ≠ "EDIT_MESH") :
    ∀ r, validate_ch3 h p = some r → r.1 = false := by
  intro r hr
  unfold validate_ch3 at hr
  rw [get_bm_not_edit h h.active_object hm] at hr
  have hmb : (h.mode == "EDIT_MESH") = false := by simpa using hm
  rw [hmb] at hr
  repeat' split at hr
  all_goals first
    | (injection hr with h2; subst h2; rfl)
    | simp_all

theorem validate_ch4_not_sculpt (h : HostState) (p : Props)
    (hm : h.mode ≠ "SCULPT") :
    ∀ r, validate_ch4 h p = some r → r.1 = false := by
  intro r hr
  have hms : is_in_sculpt_mode h = false := by
    simpa [is_in_sculpt_mode] using hm
  unfold validate_ch4 at hr
  rw [hms] at hr
  repeat' split at hr
  all_goals first
    | (injection hr with h2; subst h2; rfl)
    | simp_all

theorem countMoved_nil_right (cur : List Vec3) : countMoved cur [] = 0 := by
  cases cur <;> rfl

theorem countMoved_eq_zip_filter : ∀ cur init : List Vec3,
    countMoved cur init =
      ((cur.zip init).filter
        (fun q => decide (distSq q.1 q.2 > (1 / 1000) ^ 2))).length := by
  intro cur
  induction cur with
  | nil => intro init; cases init <;> rfl
  | cons v vs ih =>
    intro init
    cases init with
    | nil => rfl
    | cons w ws =>
      simp only [countMoved, List.zip_cons_cons, List.filter_cons, ih ws,
        decide_eq_true_eq]
      split_ifs with hd <;> simp [Nat.add_comm]

theorem scan_link_nodes_fst : ∀ (ns : List ShaderNode) (i : Nat) (img bsdf : Option Nat),
    (scan_link_nodes i img bsdf ns).1 =
      match last_idx_from "TEX_IMAGE" i ns with
      | some j => some j
      | none => img := by
  intro ns
  induction ns with
  | nil => intro i img bsdf; rfl
  | cons n rest ih =>
    intro i img bsdf
    simp only [scan_link_nodes, last_idx_from]
    rw [ih]
    cases hl : last_idx_from "TEX_IMAGE" (i + 1) rest with
    | some j => rfl
    | none =>
      by_cases ht : n.ntype == "TEX_IMAGE"
      · simp [ht]
      · simp [ht]

theorem scan_link_nodes_snd : ∀ (ns : List ShaderNode) (i : Nat) (img bsdf : Option Nat),
    (scan_link_nodes i img bsdf ns).2 =
      match last_idx_from "BSDF_PRINCIPLED" i ns with
      | some j => some j
      | none => bsdf := by
  intro ns
  induction ns with
  | nil => intro i img bsdf; rfl
  | cons n rest ih =>
    intro i img bsdf
    simp only [scan_link_nodes, last_idx_from]
    rw [ih]
    cases hl : last_idx_from "BSDF_PRINCIPLED" (i + 1) rest with
    | some j => rfl
    | none =>
      by_cases ht : n.ntype == "BSDF_PRINCIPLED"
      · simp [ht]
      · simp [ht]

theorem scan_fst_none (ns : List ShaderNode) :
    (scan_link_nodes 0 none none ns).1 = last_idx_from "TEX_IMAGE" 0 ns := by
  rw [scan_link_nodes_fst]
  cases last_idx_from "TEX_IMAGE" 0 ns <;> rfl

theorem scan_snd_none (ns : List ShaderNode) :
    (scan_link_nodes 0 none none ns).2 = last_idx_from "BSDF_PRINCIPLED" 0 ns := by
  rw [scan_link_nodes_snd]
  cases last_idx_from "BSDF_PRINCIPLED" 0 ns <;> rfl

theorem check_correct_node_link_iff (o : Obj) :
    check_correct_node_link (some o) = true ↔
      ∃ m, get_active_material (some o) = some m ∧ m.use_nodes = true ∧
        ∃ i j, last_idx_from "TEX_IMAGE" 0 m.nodes = some i ∧
          last_idx_from "BSDF_PRINCIPLED" 0 m.nodes = some j ∧
          m.links.any (fun l => l.from_node == i && l.to_node == j &&
            l.from_socket == "Color" && l.to_socket == "Base Color") = true := by
  unfold check_correct_node_link
  cases hm : get_active_material (some o) with
  | none => simp
  | some m =>
    dsimp only
    by_cases hun : m.use_nodes = true
    · rw [hun]
      simp only [Bool.not_true, Bool.false_eq_true, if_false]
      have hpair : scan_link_nodes 0 none none m.nodes =
          (last_idx_from "TEX_IMAGE" 0 m.nodes,
           last_idx_from "BSDF_PRINCIPLED" 0 m.nodes) := by
        rw [← scan_fst_none m.nodes, ← scan_snd_none m.nodes]
      rw [hpair]
      cases hA : last_idx_from "TEX_IMAGE" 0 m.nodes <;>
        cases hB : last_idx_from "BSDF_PRINCIPLED" 0 m.nodes <;>
          simp_all [List.any_eq_true, Bool.and_eq_true, beq_iff_eq]
    · simp_all

theorem clamp15_bounds (v : Int) : 1 ≤ clampI 1 5 v ∧ clampI 1 5 v ≤ 5 := by
  unfold clampI
  constructor
  · exact le_max_left 1 (min 5 v)
  · exact max_le (by norm_num) (min_le_left 5 v)

/-- C1: the claim says that repeated Advance() from (1, 1) visits exactly
  the sequence of the max-stage table (so in particular (3, 5) is followed
  by (3, 6), then chapter 4, ending at (5, 5)).  The code contradicts its
  own stage table: the stage increment is an IntProperty assignment that
  clamps at 5, so after the twelfth advance the position is (3, 5), every
  further advance leaves the whole state unchanged, and (3, 6) is never
  visited. -/
theorem C1_advance_stalls_at_3_5 :
    pos_of (advance_iter 12 default_props) = (3, 5) ∧
    (∀ k : Nat, advance_iter (12 + k) default_props = advance_iter 12 default_props) ∧
    (∀ n : Nat, pos_of (advance_iter n default_props) ≠ (3, 6)) := by
  have hfix : next_stage (advance_iter 12 default_props) = advance_iter 12 default_props := by
    decide
  have hstall : ∀ k : Nat, advance_iter (12 + k) default_props = advance_iter 12 default_props := by
    intro k
    induction k with
    | zero => rfl
    | succ k ih =>
      have h12 : 12 + (k + 1) = (12 + k) + 1 := by omega
      rw [h12]
      show next_stage (advance_iter (12 + k) default_props) = _
      rw [ih, hfix]
  refine ⟨by decide, hstall, ?_⟩
  intro n
  by_cases hn : n ≤ 12
  · interval_cases n <;> decide
  · obtain ⟨k, rfl⟩ : ∃ k, n = 12 + k := ⟨n - 12, by omega⟩
    rw [hstall k]
    decide

/-- C2: validate_stage always returns a (complete, message) pair with a
  nonempty message; an unknown (chapter, stage) pair, a missing active
  object (chapters 1 and 5), a missing 3D view (chapter 2), or a wrong
  interaction mode (chapters 3 and 4) each yield a normal failure result
  rather than a fault. -/
theorem C2_validate_total_and_failures : ∀ (h : HostState) (p : Props),
    (validate_stage h p).2 ≠ "" ∧
    (¬ known_pair p.current_chapter p.current_stage → (validate_stage h p).1 = false) ∧
    (p.current_chapter = 1 → h.active_object = none → (validate_stage h p).1 = false) ∧
    (p.current_chapter = 2 → h.view3d = none → (validate_stage h p).1 = false) ∧
    (p.current_chapter = 3 → h.mode ≠ "EDIT_MESH" → (validate_stage h p).1 = false) ∧
    (p.current_chapter = 4 → h.mode ≠ "SCULPT" → (validate_stage h p).1 = false) ∧
    (p.current_chapter = 5 → h.active_object = none → (validate_stage h p).1 = false) := by
  intro h p
  refine ⟨?_, ?_, ?_, ?_, ?_, ?_, ?_⟩
  · -- message never empty
    unfold validate_stage
    split_ifs
    · cases hv : validate_ch1 h p with
      | none => decide
      | some r => simpa using validate_ch1_msg h p r hv
    · cases hv : validate_ch2 h p with
      | none => decide
      | some r => simpa using validate_ch2_msg h p r hv
    · cases hv : validate_ch3 h p with
      | none => decide
      | some r => simpa using validate_ch3_msg h p r hv
    · cases hv : validate_ch4 h p with
      | none => decide
      | some r => simpa using validate_ch4_msg h p r hv
    · cases hv : validate_ch5 h p with
      | none => decide
      | some r => simpa using validate_ch5_msg h p r hv
    · decide
  · -- unknown pair validates as failure
    intro hnk
    unfold validate_stage
    split_ifs with hc1 hc2 hc3 hc4 hc5
    · have hs : ¬(1 ≤ p.current_stage ∧ p.current_stage ≤ 4) := by
        intro hcon; exact hnk (Or.inl ⟨hc1, hcon⟩)
      rw [validate_ch1_out h p hs]; rfl
    · have hs : ¬(1 ≤ p.current_stage ∧ p.current_stage ≤ 4) := by
        intro hcon; exact hnk (Or.inr (Or.inl ⟨hc2, hcon⟩))
      cases hv : validate_ch2 h p with
      | none => rfl
      | some r => simpa using validate_ch2_out h p hs r hv
    · have hs : ¬(1 ≤ p.current_stage ∧ p.current_stage ≤ 6) := by
        intro hcon; exact hnk (Or.inr (Or.inr (Or.inl ⟨hc3, hcon⟩)))
      rw [validate_ch3_out h p hs]; rfl
    · have hs : ¬(1 ≤ p.current_stage ∧ p.current_stage ≤ 4) := by
        intro hcon; exact hnk (Or.inr (Or.inr (Or.inr (Or.inl ⟨hc4, hcon⟩))))
      rw [validate_ch4_out h p hs]; rfl
    · have hs : ¬(1 ≤ p.current_stage ∧ p.current_stage ≤ 5) := by
        intro hcon; exact hnk (Or.inr (Or.inr (Or.inr (Or.inr ⟨hc5, hcon⟩))))
      rw [validate_ch5_out h p hs]; rfl
    · rfl
  · -- chapter 1 with no active object
    intro hc ho
    unfold validate_stage
    rw [hc]
    norm_num
    cases hv : validate_ch1 h p with
    | none => rfl
    | some r => simpa using validate_ch1_noobj h p ho r hv
  · -- chapter 2 with no 3d view
    intro hc hv
    unfold validate_stage
    rw [hc]
    norm_num
    rw [validate_ch2_noview h p hv]
    rfl
  · -- chapter 3 outside edit mode
    intro hc hm
    unfold validate_stage
    rw [hc]
    norm_num
    cases hv : validate_ch3 h p with
    | none => rfl
    | some r => simpa using validate_ch3_not_edit h p hm r hv
  · -- chapter 4 outside sculpt mode
    intro hc hm
    unfold validate_stage
    rw [hc]
    norm_num
    cases hv : validate_ch4 h p with
    | none => rfl
    | some r => simpa using validate_ch4_not_sculpt h p hm r hv
  · -- chapter 5 with no active object
    intro hc ho
    unfold validate_stage
    rw [hc]
    norm_num
    cases hv : validate_ch5 h p with
    | none => rfl
    | some r => simpa using validate_ch5_noobj h p ho r hv

theorem C2_validate_total_and_failures_witness : (validate_stage host_plain props_1_5).1 = false :=
  (C2_validate_total_and_failures host_plain props_1_5).2.1 (by decide)

/-- C3 counterexample: an active object named Cube whose y scale differs
  from the baseline by more than 0.01 (x unchanged) makes the claimed
  any-axis condition true, yet the chapter 1 stage 4 validator returns
  (false, _): the source compares only the x axis. -/
theorem C3_scale_any_axis_counterexample :
    (host_c3.active_object = some cube_scaled_y ∧ cube_scaled_y.name = "Cube" ∧
      ratAbs (cube_scaled_y.scale.y - props_1_4.initial_scale.y) > 1 / 100) ∧
    validate_stage host_c3 props_1_4 = (false, "err change the scale value") := by
  with_unfolding_all decide

/-- C3 amended: the chapter 1 stage 4 validator returns complete = true
  iff an active object named Cube exists and its x scale component
  differs from the baseline x scale component by more than 0.01 (the
  source checks only the x axis, not all three). -/
theorem C3_scale_x_only : ∀ (h : HostState) (p : Props),
    p.current_chapter = 1 → p.current_stage = 4 →
    ((validate_stage h p).1 = true ↔
      ∃ o, h.active_object = some o ∧ o.name = "Cube" ∧
        ratAbs (o.scale.x - p.initial_scale.x) > 1 / 100) := by
  intro h p hc hs
  unfold validate_stage validate_ch1
  rw [hc, hs]
  norm_num
  cases ho : h.active_object with
  | none => simp
  | some o =>
    by_cases hn : o.name = "Cube"
    · simp only [hn, beq_self_eq_true, if_true]
      split_ifs with hgt
      · simp only [Option.getD_some]
        constructor
        · intro _; exact ⟨o, rfl, hn, hgt⟩
        · intro _; trivial
      · simp only [Option.getD_some]
        constructor
        · intro hfalse; exact absurd hfalse (by simp)
        · rintro ⟨o2, ho2, hn2, hgt2⟩
          injection ho2 with ho2
          subst ho2
          exact absurd hgt2 hgt
    · simp [hn]

theorem C3_scale_x_only_witness :
    (validate_stage host_c3 props_1_4).1 = true ↔
      ∃ o, host_c3.active_object = some o ∧ o.name = "Cube" ∧
        ratAbs (o.scale.x - props_1_4.initial_scale.x) > 1 / 100 :=
  C3_scale_x_only host_c3 props_1_4 rfl rfl

/-- C4: the chapter 2 stage 4 validator succeeds iff the Euclidean
  view-location displacement exceeds 0.1 (embedded as its square
  exceeding 0.1 squared) and the absolute view-distance change exceeds
  0.5, a conjunction; a location delta of 0.2 with a distance delta of
  0.3 fails, and with a distance delta of 0.6 succeeds. -/
theorem C4_view_conjunction :
    (∀ (h : HostState) (p : Props) (r : Region3D),
      h.view3d = some r → p.current_chapter = 2 → p.current_stage = 4 →
      ((validate_stage h p).1 = true ↔
        distSq r.view_location p.initial_view_location > (1 / 10) ^ 2 ∧
        ratAbs (r.view_distance - p.initial_view_distance) > 1 / 2)) ∧
    (validate_stage host_c4a props_2_4).1 = false ∧
    (validate_stage host_c4b props_2_4).1 = true := by
  refine ⟨?_, by with_unfolding_all decide, by with_unfolding_all decide⟩
  intro h p r hv hc hs
  unfold validate_stage validate_ch2
  rw [hc, hs, hv]
  norm_num
  split_ifs with hcond
  · simp only [Option.getD_some]
    constructor
    · intro _; exact hcond
    · intro _; trivial
  · simp only [Option.getD_some]
    constructor
    · intro hfalse; exact absurd hfalse (by simp)
    · intro hcon; exact absurd hcon hcond

theorem C4_view_conjunction_witness :
    (validate_stage host_c4b props_2_4).1 = true ↔
      distSq region_pan_large_zoom.view_location props_2_4.initial_view_location > (1 / 10) ^ 2 ∧
      ratAbs (region_pan_large_zoom.view_distance - props_2_4.initial_view_distance) > 1 / 2 :=
  C4_view_conjunction.1 host_c4b props_2_4 region_pan_large_zoom rfl rfl rfl

/-- C5: in sculpt mode with a sphere present, the chapter 4 stage 2
  validator succeeds iff the moved-vertex count exceeds 5, where the
  count walks indices below the shorter of the two vertex lists and
  counts distances above 0.001 (the zip-filter equation); an empty
  baseline yields a normal failure. -/
theorem C5_sculpt_deformation :
    (∀ (h : HostState) (p : Props) (s : Obj),
      p.current_chapter = 4 → p.current_stage = 2 →
      h.mode = "SCULPT" → find_sphere h = some s →
      (((validate_stage h p).1 = true ↔
        5 < get_vertex_deformation_amount (some s) p.initial_vertex_positions) ∧
       (p.initial_vertex_positions = [] → (validate_stage h p).1 = false))) ∧
    (∀ cur init : List Vec3,
      countMoved cur init =
        ((cur.zip init).filter
          (fun q => decide (distSq q.1 q.2 > (1 / 1000) ^ 2))).length) := by
  refine ⟨?_, countMoved_eq_zip_filter⟩
  intro h p s hc hs hm hsph
  have hsc : is_in_sculpt_mode h = true := by
    simp [is_in_sculpt_mode, hm]
  have hmain : (validate_stage h p).1 = true ↔
      5 < get_vertex_deformation_amount (some s) p.initial_vertex_positions := by
    unfold validate_stage validate_ch4
    rw [hc, hs, hsc, hsph]
    norm_num
    split_ifs with hcond
    · simp only [Option.getD_some]
      constructor
      · intro _; exact hcond
      · intro _; trivial
    · simp only [Option.getD_some]
      constructor
      · intro hfalse; exact absurd hfalse (by simp)
      · intro hcon; exact absurd hcon hcond
  refine ⟨hmain, ?_⟩
  intro hinit
  have hzero : get_vertex_deformation_amount (some s) p.initial_vertex_positions = 0 := by
    rw [hinit]
    simp [get_vertex_deformation_amount, countMoved_nil_right]
  by_cases hv : (validate_stage h p).1 = true
  · exfalso
    have := hmain.mp hv
    rw [hzero] at this
    omega
  · simpa using hv

theorem C5_sculpt_deformation_witness :
    (validate_stage host_c5w props_4_2).1 = true ↔
      5 < get_vertex_deformation_amount (some sphere_deformed)
            props_4_2.initial_vertex_positions :=
  (C5_sculpt_deformation.1 host_c5w props_4_2 sphere_deformed rfl rfl rfl
    (by with_unfolding_all decide)).1

/-- C6 counterexample: a material with two image-texture nodes where the
  link leaves the first one satisfies the claimed exists-an-image-node
  condition (spec_color_base_link), yet the chapter 5 stage 4 validator
  returns (false, _): the source scan keeps only the last image-texture
  node found. -/
theorem C6_any_image_node_counterexample :
    spec_color_base_link mat_two_tex = true ∧
    get_active_material host_c6.active_object = some mat_two_tex ∧
    mat_two_tex.use_nodes = true ∧
    validate_stage host_c6 props_5_4 = (false, "err connect color to base color") := by
  with_unfolding_all decide

/-- C6 amended: the chapter 5 stage 4 validator succeeds iff the active
  material uses nodes and there is a link from the LAST image-texture
  node (in node-list order) to the LAST principled node whose sockets
  are named Color and Base Color; with a single image-texture node and a
  single principled node this coincides with the claimed condition. -/
theorem C6_last_nodes_link : ∀ (h : HostState) (p : Props) (o : Obj),
    p.current_chapter = 5 → p.current_stage = 4 → h.active_object = some o →
    ((validate_stage h p).1 = true ↔
      ∃ m, get_active_material (some o) = some m ∧ m.use_nodes = true ∧
        ∃ i j, last_idx_from "TEX_IMAGE" 0 m.nodes = some i ∧
          last_idx_from "BSDF_PRINCIPLED" 0 m.nodes = some j ∧
          m.links.any (fun l => l.from_node == i && l.to_node == j &&
            l.from_socket == "Color" && l.to_socket == "Base Color") = true) := by
  intro h p o hc hs ho
  have hlhs : (validate_stage h p).1 = check_correct_node_link (some o) := by
    unfold validate_stage validate_ch5
    rw [hc, hs, ho]
    norm_num
    cases hl : check_correct_node_link (some o) <;> simp [hl]
  rw [hlhs]
  exact check_correct_node_link_iff o

theorem C6_last_nodes_link_witness :
    (validate_stage host_c6w props_5_4).1 = true ↔
      ∃ m, get_active_material (some obj_linked) = some m ∧ m.use_nodes = true ∧
        ∃ i j, last_idx_from "TEX_IMAGE" 0 m.nodes = some i ∧
          last_idx_from "BSDF_PRINCIPLED" 0 m.nodes = some j ∧
          m.links.any (fun l => l.from_node == i && l.to_node == j &&
            l.from_socket == "Color" && l.to_socket == "Base Color") = true :=
  C6_last_nodes_link host_c6w props_5_4 obj_linked rfl rfl rfl

/-- C7: validating twice with unchanged host state returns the same
  (complete, message) pair both times, and stage_complete is write-once:
  it never toggles from true back to false across validate calls. -/
theorem C7_validate_idempotent : ∀ (h : HostState) (p : Props),
    (validate_stage_execute h (validate_stage_execute h p).1).2 =
      (validate_stage_execute h p).2 ∧
    (p.stage_complete = true → ((validate_stage_execute h p).1).stage_complete = true) ∧
    (((validate_stage_execute h p).1).stage_complete = true →
      ((validate_stage_execute h (validate_stage_execute h p).1).1).stage_complete = true) := by
  intro h p
  have h1 : (validate_stage_execute h p).1 = p ∨
      (validate_stage_execute h p).1 = { p with stage_complete := true } := by
    by_cases hc : (validate_stage h p).1 = true
    · right; simp [validate_stage_execute, hc]
    · left; simp [validate_stage_execute, hc]
  have hval : validate_stage h (validate_stage_execute h p).1 = validate_stage h p := by
    rcases h1 with h1 | h1 <;> rw [h1]
    exact validate_stage_irrel h p true
  refine ⟨?_, fun hsc => validate_stage_execute_mono h p hsc,
    fun hsc => validate_stage_execute_mono h _ hsc⟩
  rw [validate_stage_execute_snd, validate_stage_execute_snd, hval]

theorem C7_validate_idempotent_witness :
    ((validate_stage_execute host_c7w props_complete).1).stage_complete = true :=
  (C7_validate_idempotent host_c7w props_complete).2.1 rfl

/-- C8: a completed Setup() always leaves stage_complete = false and
  monitoring_active = true, regardless of the prior state and of the
  (chapter, stage) position. -/
theorem C8_setup_flags : ∀ (h : HostState) (p : Props),
    (setup_stage h p).stage_complete = false ∧
    (setup_stage h p).monitoring_active = true :=
  fun _ _ => ⟨rfl, rfl⟩

/-- C9: on a timer tick, monitoring_active = false removes the timer and
  terminates the poll loop without calling the validator; a tick during
  an undo (with monitoring on) changes nothing and calls no validator;
  the validator is never evaluated when monitoring is off or an undo is
  running. -/
theorem C9_monitoring_gates : ∀ (h : HostState) (now : ℚ) (s : MonState),
    (s.props.monitoring_active = false →
      modal_tick h now s = ({ s with timer_active := false }, ModalResult.finished, false)) ∧
    (s.props.monitoring_active = true → is_undo_running h = true →
      modal_tick h now s = (s, ModalResult.pass_through, false)) ∧
    ((s.props.monitoring_active = false ∨ is_undo_running h = true) →
      (modal_tick h now s).2.2 = false) := by
  intro h now s
  refine ⟨?_, ?_, ?_⟩
  · intro hm
    simp [modal_tick, hm]
  · intro hm hu
    simp [modal_tick, hm, hu]
  · rintro (hm | hu)
    · simp [modal_tick, hm]
    · cases hmon : s.props.monitoring_active
      · simp [modal_tick, hmon]
      · simp [modal_tick, hmon, hu]

theorem C9_monitoring_gates_witness :
    modal_tick host_c9w 0 mon_idle =
      ({ mon_idle with timer_active := false }, ModalResult.finished, false) :=
  (C9_monitoring_gates host_c9w 0 mon_idle).1 rfl

/-- C10: the two position properties clamp every assignment into [1, 5],
  so after an advance, reset or chapter jump both current_chapter and
  current_stage lie in [1, 5]; in particular no advance can ever produce
  stage 6, hence position (3, 6) is never held. -/
theorem C10_position_clamped :
    (∀ v : Int, 1 ≤ clampI 1 5 v ∧ clampI 1 5 v ≤ 5) ∧
    (∀ p : Props, in_range p → in_range (next_stage p) ∧ (next_stage p).current_stage ≠ 6) ∧
    (∀ (p : Props) (n : Int), in_range (goto_chapter n p) ∧ in_range (reset_progress p)) := by
  refine ⟨clamp15_bounds, ?_, ?_⟩
  · intro p hp
    unfold next_stage
    split_ifs with h1 h2
    · have hb := clamp15_bounds (p.current_stage + 1)
      simp only [in_range, set_current_stage] at *
      refine ⟨⟨hp.1, hp.2.1, hb.1, hb.2⟩, by omega⟩
    · have hb := clamp15_bounds (p.current_chapter + 1)
      have hb1 := clamp15_bounds 1
      simp only [in_range, set_current_stage, set_current_chapter] at *
      refine ⟨⟨hb.1, hb.2, hb1.1, hb1.2⟩, by omega⟩
    · exact ⟨hp, by unfold in_range at hp; omega⟩
  · intro p n
    have hbn := clamp15_bounds (clampI 1 5 n)
    have hb1 := clamp15_bounds 1
    constructor
    · simp only [in_range, goto_chapter, set_current_stage, set_current_chapter]
      exact ⟨hbn.1, hbn.2, hb1.1, hb1.2⟩
    · simp only [in_range, reset_progress, set_current_stage, set_current_chapter]
      exact ⟨hb1.1, hb1.2, hb1.1, hb1.2⟩

theorem C10_position_clamped_witness :
    in_range (next_stage props_3_5) ∧ (next_stage props_3_5).current_stage ≠ 6 :=
  C10_position_clamped.2.1 props_3_5 (by decide)
